import Mathlib

/-!
Verification of the apidance-py-sdk request/retry engine, response
classifier, pagination loops and model mapper, as a shallow embedding of
`src/apidance/client.py` and `src/apidance/models.py`.

JSON values are modelled by the inductive `Json`; Python dictionary/list
operations that can raise (`d[k]`, `x in d`, `d.get`, iteration) are
modelled as `Except PyErr _` computations so that the exception flow of
the source is preserved exactly.
-/

/-!
A parsed JSON value, as produced by `response.json()`.  Objects are
association lists (the modelled payloads never use duplicate keys); the
list and field spines are first-order companion types so that structural
recursion and decidable equality are available.
-/

mutual

inductive Json where
  | null : Json
  | bool (b : Bool) : Json
  | num (n : Int) : Json
  | str (s : String) : Json
  | arr (xs : JsonList) : Json
  | obj (kvs : JsonFields) : Json
deriving DecidableEq

inductive JsonList where
  | nil : JsonList
  | cons (head : Json) (tail : JsonList) : JsonList
deriving DecidableEq

inductive JsonFields where
  | nil : JsonFields
  | cons (key : String) (val : Json) (tail : JsonFields) : JsonFields
deriving DecidableEq

end

/-- Build a JSON array node from a Lean list. -/
def JsonList.ofList : List Json → JsonList
  | [] => .nil
  | x :: rest => .cons x (JsonList.ofList rest)

/-- Build a JSON object node from a Lean association list. -/
def JsonFields.ofList : List (String × Json) → JsonFields
  | [] => .nil
  | (k, v) :: rest => .cons k v (JsonFields.ofList rest)

/-- JSON array literal. -/
def jarr (xs : List Json) : Json := .arr (JsonList.ofList xs)

/-- JSON object literal. -/
def jobj (kvs : List (String × Json)) : Json := .obj (JsonFields.ofList kvs)

/-- The elements of a JSON array node, as a Lean list. -/
def JsonList.toList : JsonList → List Json
  | .nil => []
  | .cons x rest => x :: rest.toList

/-- The keys of a JSON object node, in order. -/
def JsonFields.keys : JsonFields → List String
  | .nil => []
  | .cons k _ rest => k :: rest.keys

/-- First value bound to `key`, if any (Python dict lookup). -/
def JsonFields.find? (kvs : JsonFields) (key : String) : Option Json :=
  match kvs with
  | .nil => none
  | .cons k v rest => if k = key then some v else rest.find? key

/-- Whether `key` is bound (Python `key in dict`). -/
def JsonFields.hasKey (kvs : JsonFields) (key : String) : Bool :=
  match kvs with
  | .nil => false
  | .cons k _ rest => k = key || rest.hasKey key

/-!
`Json.size`: node-count size of a JSON value, used only to seed recursion
fuel.
-/

mutual

def Json.size : Json → Nat
  | .null => 1
  | .bool _ => 1
  | .num _ => 1
  | .str _ => 1
  | .arr xs => 1 + xs.size
  | .obj kvs => 1 + kvs.size
termination_by structural j => j

def JsonList.size : JsonList → Nat
  | .nil => 0
  | .cons x xs => x.size + xs.size
termination_by structural j => j

def JsonFields.size : JsonFields → Nat
  | .nil => 0
  | .cons _ v kvs => v.size + kvs.size
termination_by structural j => j

end

/-- The exception kinds that the modelled code can raise: the SDK's own
exception classes from `src/apidance/exceptions.py` plus the Python
builtin exceptions that the client code can hit.  Message payloads are
carried where the source builds them from response data; fixed prose
messages are dropped. -/
inductive PyErr : Type where
  | rateLimit : PyErr
  | invalidInput (msg : Json) : PyErr
  | twitterPlatform (msg : Json) : PyErr
  | insufficientCredits : PyErr
  | apidancePlatform (msg : String) : PyErr
  | authentication (msg : Json) : PyErr
  | premiumRequired : PyErr
  | timeout : PyErr
  | apiKey : PyErr
  | authToken : PyErr
  | jsonDecode : PyErr
  | typeError : PyErr
  | keyError : PyErr
  | indexError : PyErr
  | attributeError : PyErr
  | valueError : PyErr
  | connectError : PyErr
  | otherError (msg : String) : PyErr
deriving DecidableEq

/-- Models `isinstance(e, (AuthTokenError, InsufficientCreditsError, ApidancePlatformError))`:
the `fatal_exceptions` tuple of `_make_request` (client.py:198).  Note that
`RateLimitError` is a subclass of `ApidancePlatformError`
(exceptions.py:57), so it matches this tuple. -/
def PyErr.isFatalTuple : PyErr → Bool
  | .authToken => true
  | .insufficientCredits => true
  | .apidancePlatform _ => true
  | .rateLimit => true
  | _ => false

/-- Python truthiness of a JSON value. -/
def Json.falsy : Json → Bool
  | .null => true
  | .bool b => !b
  | .num n => n = 0
  | .str s => s = ""
  | .arr .nil => true
  | .arr (.cons _ _) => false
  | .obj .nil => true
  | .obj (.cons _ _ _) => false

/-- Whether `pat` is a leading segment of `cs` (character-list level, so that
concrete evaluation reduces in the kernel). -/
def listLeads : List Char → List Char → Bool
  | _, [] => true
  | [], _ :: _ => false
  | c :: cs, d :: ds => c = d && listLeads cs ds

/-- Python `s.startswith(p)` at the string level. -/
def strLeads (s p : String) : Bool :=
  listLeads s.toList p.toList

/-- Occurrence of `needle` anywhere in `cs`. -/
def listContainsSeq : List Char → List Char → Bool
  | [], needle => needle.isEmpty
  | c :: cs, needle => listLeads (c :: cs) needle || listContainsSeq cs needle

/-- Substring test, modelling Python's `needle in haystack` on strings. -/
def strContains (hay needle : String) : Bool :=
  listContainsSeq hay.toList needle.toList

/-- ASCII lower-casing of one character (as `str.lower` acts on the ASCII
message strings the client inspects). -/
def charLower (c : Char) : Char :=
  if 'A' ≤ c && c ≤ 'Z' then Char.ofNat (c.toNat + 32) else c

/-- ASCII `s.lower()`. -/
def strLower (s : String) : String :=
  String.mk (s.toList.map charLower)

/-- Python `j == s` for a string literal `s`. -/
def jsonEqStr (j : Json) (s : String) : Bool :=
  match j with
  | .str t => t = s
  | _ => false

/-- Python `j is None` / `j == None`: the body parsed to a bare JSON `null`. -/
def Json.isNull : Json → Bool
  | .null => true
  | _ => false

/-- Python `j == {}` (an empty dict compares equal only to an empty dict). -/
def Json.isEmptyObj : Json → Bool
  | .obj .nil => true
  | _ => false

/-- Python `key in x`: key lookup on dicts, element membership on lists
(elements compared against the string key), substring on strings,
`TypeError` otherwise (in particular on `None`). -/
def pyIn (key : String) : Json → Except PyErr Bool
  | .obj kvs => .ok (kvs.hasKey key)
  | .arr xs => .ok (xs.toList.any (fun j => jsonEqStr j key))
  | .str s => .ok (strContains s key)
  | _ => .error .typeError

/-- Python `d[key]` with a string key: `KeyError` when missing,
`TypeError` on non-dicts. -/
def pyIndexStr (j : Json) (key : String) : Except PyErr Json :=
  match j with
  | .obj kvs =>
    match kvs.find? key with
    | some v => .ok v
    | none => .error .keyError
  | _ => .error .typeError

/-- Python `x[0]`: head of a list (`IndexError` when empty), first
character of a string, `TypeError` otherwise. -/
def pyIndex0 : Json → Except PyErr Json
  | .arr .nil => .error .indexError
  | .arr (.cons x _) => .ok x
  | .str s => if s = "" then .error .indexError else .ok (.str (String.mk (s.toList.take 1)))
  | _ => .error .typeError

/-- Python `d.get(key)`: `None`-defaulted lookup on dicts
(`AttributeError` on anything that is not a dict). -/
def pyGetOpt (j : Json) (key : String) : Except PyErr (Option Json) :=
  match j with
  | .obj kvs => .ok (kvs.find? key)
  | _ => .error .attributeError

/-- Python `d.get(key, default)`. -/
def pyGetD (j : Json) (key : String) (dflt : Json) : Except PyErr Json :=
  match j with
  | .obj kvs =>
    match kvs.find? key with
    | some v => .ok v
    | none => .ok dflt
  | _ => .error .attributeError

/-- Python `for x in j`: elements of a list, keys of a dict,
characters of a string, `TypeError` otherwise. -/
def pyIterate : Json → Except PyErr (List Json)
  | .arr xs => .ok xs.toList
  | .obj kvs => .ok (kvs.keys.map (fun k => .str k))
  | .str s => .ok (s.toList.map (fun c => .str (String.mk [c])))
  | _ => .error .typeError

/-- Python `j == n` for an integer literal `n`.  Python treats `bool` as a
subtype of `int`, so `True == 1`. -/
def jsonEqNum (j : Json) (n : Int) : Bool :=
  match j with
  | .num m => m = n
  | .bool b => (if b then (1 : Int) else 0) = n
  | _ => false

/-- Equality used for the dedup membership test
`tweet.id not in (set of accumulated ids)` (client.py:362, 649).
Python requires set elements to be hashable, so ids coming out of parsed
JSON can only be scalars here; `True == 1` per Python int/bool unification. -/
def jsonIdEq (a b : Json) : Bool :=
  match a, b with
  | .null, .null => true
  | .bool x, .bool y => x = y
  | .num x, .num y => x = y
  | .str x, .str y => x = y
  | .bool x, .num y => (if x then (1 : Int) else 0) = y
  | .num x, .bool y => x = (if y then (1 : Int) else 0)
  | _, _ => false

/-- Python `o == n` where `o` came from `.get(key)` (so it may be `None`). -/
def optEqNum (o : Option Json) (n : Int) : Bool :=
  match o with
  | some j => jsonEqNum j n
  | none => false

/-- Python `o == s` where `o` came from `.get(key)`. -/
def optEqStr (o : Option Json) (s : String) : Bool :=
  match o with
  | some j => jsonEqStr j s
  | none => false

/-- Python `j > 0` (client.py:137): integer comparison; `bool` compares as
an int; every other type raises `TypeError` against an int. -/
def pyGtZero : Json → Except PyErr Bool
  | .num n => .ok (0 < n)
  | .bool b => .ok b
  | _ => .error .typeError

/-- Python `.lower()`: `AttributeError` on non-strings. -/
def pyLower : Json → Except PyErr String
  | .str s => .ok (strLower s)
  | _ => .error .attributeError

/-- Python `.startswith(p)`: `AttributeError` on non-strings. -/
def pyStartsWith (j : Json) (p : String) : Except PyErr Bool :=
  match j with
  | .str s => .ok (strLeads s p)
  | _ => .error .attributeError

/-!
## Retry engine (`TwitterClient._should_retry`, `_calculate_retry_delay`,
`_make_request` — client.py:72-253)

Float retry delays are modelled over `ℚ`.  A raw HTTP response carries the
body text and the result of `response.json()` (`none` models
`json.JSONDecodeError`).  The transport (`self.client.request`) is an
oracle from the attempt number to an outcome.
-/

/-- The retry-related constructor arguments of `TwitterClient`
(client.py:27-70). -/
structure RetryConfig where
  max_retries : Nat
  initial_retry_delay : ℚ
  max_retry_delay : ℚ
  backoff_factor : ℚ

/-- Models `TwitterClient._calculate_retry_delay` (client.py:72-85):
`min(initial_retry_delay * backoff_factor ** (attempt - 1), max_retry_delay)`. -/
def calculate_retry_delay (cfg : RetryConfig) (attempt : Nat) : ℚ :=
  min (cfg.initial_retry_delay * cfg.backoff_factor ^ (attempt - 1)) cfg.max_retry_delay

/-- A completed HTTP round trip: the body text and the parsed JSON
(`none` when `response.json()` raises `json.JSONDecodeError`). -/
structure HttpResponse where
  text : String
  parsed : Option Json

/-- What `self.client.request(...)` does on a given attempt. -/
inductive TransportResult where
  | ok (resp : HttpResponse)
  | connectError
  | otherError (msg : String)

/-- Models `TwitterClient._should_retry` (client.py:87-152).  Returns the boolean
the Python function returns, or the exception it raises.

Order of the source checks: (1) `attempt >= max_retries` returns `False`
before anything else; (2) unparsable JSON retries; (3) the Twitter-style
`errors` envelope: 88 rate limit (raise on the final attempt — dead code
because of check (1) — else retry), 366 `InvalidInputError`, 139 accept,
64 retry, anything else `TwitterPlatformError`; (4) the Apidance-style
envelope (`code > 0`), `InsufficientCreditsError` when `msg` mentions
insufficient api counts else `ApidancePlatformError`; (5) the
`local_rate_limited` sentinel text retries; (6) `"data" in response_data`
— unguarded against `response_data` being `None` — accepts. -/
def should_retry (max_retries : Nat) (response : HttpResponse) (attempt : Nat) :
    Except PyErr Bool := do
  if attempt ≥ max_retries then
    return false
  match response.parsed with
  | none => return true
  | some response_data =>
    let hasErrors ←
      if !response_data.isNull then pyIn "errors" response_data else pure false
    if hasErrors then
      let errorsVal ← pyIndexStr response_data "errors"
      let firstError ← pyIndex0 errorsVal
      let error_code ← pyGetOpt firstError "code"
      if optEqNum error_code 88 then
        if attempt = max_retries then
          throw .rateLimit
        else
          return true
      else if optEqNum error_code 366 then
        throw (.invalidInput (← pyGetD firstError "message" (.str "")))
      else if optEqNum error_code 139 then
        return false
      else if optEqNum error_code 64 then
        return true
      else
        throw (.twitterPlatform (← pyGetD firstError "message" (.str "")))
    let apidanceHit ←
      if !response_data.isNull then do
        pyGtZero (← pyGetD response_data "code" (.num 0))
      else pure false
    if apidanceHit then
      let msg ← pyLower (← pyGetD response_data "msg" (.str ""))
      if strContains msg "insufficient api counts" then
        throw .insufficientCredits
      else
        throw (.apidancePlatform msg)
    if response.text = "local_rate_limited" then
      return true
    let hasData ← pyIn "data" response_data
    if hasData then
      return false
    return false

/-- What `_make_request` hands back to its caller. -/
inductive RequestResult where
  | value (j : Json)
  | pyNone
  | error (e : PyErr)

/-- One run of the `_make_request` retry loop: its outcome, the backoff
delays slept (in order), and the number of HTTP attempts issued. -/
structure RunTrace where
  result : RequestResult
  delays : List ℚ
  attempts : Nat

/-- The retry loop of `TwitterClient._make_request` (client.py:204-253),
one iteration per constructor application; `remaining` counts the loop
iterations left in `range(1, max_retries + 1)`.

Exception flow of the nested `try` blocks: a classifier exception that
matches `fatal_exceptions` is re-raised by the inner handler, which hands
it to the *outer* `except Exception` handler of the same iteration — so it
is recorded as `last_error` and retried unless this is the final attempt
(in which case the outer handler wraps it in
`ApidancePlatformError("Unexpected error: ...")`).  The inner
`except RateLimitError` clause is unreachable because `RateLimitError`
already matches `fatal_exceptions`.  Any other classifier exception hits
the inner `except Exception`, which breaks out of the loop and re-raises
it as `last_error`.  Falling out of the loop with no recorded error
returns Python `None`. -/
def make_request_go (cfg : RetryConfig) (transport : Nat → TransportResult) :
    Nat → Nat → Option PyErr → List ℚ → Nat → RunTrace
  | _, 0, lastError, delays, n =>
    { result := match lastError with
        | some e => .error e
        | none => .pyNone,
      delays := delays, attempts := n }
  | attempt, remaining + 1, lastError, delays, n =>
    match transport attempt with
    | .connectError =>
      if attempt = cfg.max_retries then
        { result := .error .timeout, delays := delays, attempts := n + 1 }
      else
        make_request_go cfg transport (attempt + 1) remaining (some .connectError)
          (delays ++ [calculate_retry_delay cfg attempt]) (n + 1)
    | .otherError m =>
      if attempt = cfg.max_retries then
        { result := .error (.apidancePlatform "Unexpected error"), delays := delays,
          attempts := n + 1 }
      else
        make_request_go cfg transport (attempt + 1) remaining (some (.otherError m))
          (delays ++ [calculate_retry_delay cfg attempt]) (n + 1)
    | .ok resp =>
      match should_retry cfg.max_retries resp attempt with
      | .ok false =>
        match resp.parsed with
        | some j => { result := .value j, delays := delays, attempts := n + 1 }
        | none => { result := .error .jsonDecode, delays := delays, attempts := n + 1 }
      | .ok true =>
        make_request_go cfg transport (attempt + 1) remaining lastError
          (delays ++ [calculate_retry_delay cfg attempt]) (n + 1)
      | .error e =>
        if e.isFatalTuple then
          if attempt = cfg.max_retries then
            { result := .error (.apidancePlatform "Unexpected error"), delays := delays,
              attempts := n + 1 }
          else
            make_request_go cfg transport (attempt + 1) remaining (some e)
              (delays ++ [calculate_retry_delay cfg attempt]) (n + 1)
        else
          { result := .error e, delays := delays, attempts := n + 1 }

/-- Models `TwitterClient._make_request` (client.py:154-253), abstracted over the
transport oracle. -/
def make_request (cfg : RetryConfig) (transport : Nat → TransportResult) : RunTrace :=
  make_request_go cfg transport 1 cfg.max_retries none [] 0

/-!
## Model mapper (`src/apidance/models.py`)

Datetimes are represented by their source strings, validated against the
single fixed format `"%a %b %d %H:%M:%S %z %Y"`; field values keep the
JSON values the Python code stores in the dataclass slots.
-/

/-- Character-list split on a separator, total and kernel-reducible. -/
def splitOnChar (sep : Char) : List Char → List (List Char)
  | [] => [[]]
  | c :: cs =>
    match splitOnChar sep cs with
    | [] => [[c]]
    | r :: rs => if c = sep then [] :: r :: rs else (c :: r) :: rs

/-- All characters are ASCII digits. -/
def allDigits (cs : List Char) : Bool :=
  cs.all (fun c => '0' ≤ c && c ≤ '9')

/-- The strings accepted by `datetime.strptime(_, "%a %b %d %H:%M:%S %z %Y")`,
the one fixed timestamp format of the mapper (models.py:103, 145): weekday
and month abbreviations, a two-digit day, a `HH:MM:SS` clock, a signed
four-digit UTC offset and a four-digit year, separated by single spaces. -/
def matchesTwitterTime (s : String) : Bool :=
  match splitOnChar ' ' s.toList with
  | [wd, mon, day, tim, tz, yr] =>
    (["Mon", "Tue", "Wed", "Thu", "Fri", "Sat", "Sun"].map String.toList).any (fun w => w == wd) &&
    (["Jan", "Feb", "Mar", "Apr", "May", "Jun",
      "Jul", "Aug", "Sep", "Oct", "Nov", "Dec"].map String.toList).any (fun m => m == mon) &&
    day.length = 2 && allDigits day &&
    (match splitOnChar ':' tim with
     | [h, m, sec] =>
       h.length = 2 && m.length = 2 && sec.length = 2 &&
       allDigits h && allDigits m && allDigits sec
     | _ => false) &&
    tz.length = 5 && (listLeads tz ['+'] || listLeads tz ['-']) && allDigits (tz.drop 1) &&
    yr.length = 4 && allDigits yr
  | _ => false

/-- Models `datetime.strptime(v, "%a %b %d %H:%M:%S %z %Y")` applied to a value
read out of JSON: `TypeError` on non-strings, `ValueError` when the string
does not match the format (in particular on the empty string that
`legacy.get("created_at", "")` yields for an absent key); a successful
parse is represented by the matched string itself. -/
def pyStrptime (j : Json) : Except PyErr String :=
  match j with
  | .str s => if matchesTwitterTime s then .ok s else .error .valueError
  | _ => .error .typeError

/-- The `User` dataclass (models.py:6-28).  Fields hold the JSON values
the constructor stores; optional dataclass fields default to `None`. -/
structure User where
  id : Json
  name : Json
  username : Json
  profile_image_url : Json
  followers_count : Json
  following_count : Json
  description : Option Json := none
  created_at : Option String := none
  profile_banner_url : Option Json := none
  media_count : Option Json := none
  listed_count : Option Json := none
  favourites_count : Option Json := none
  statuses_count : Option Json := none
  location : Option Json := none
  url : Option Json := none
  is_blue_verified : Option Json := none
  is_profile_translatable : Option Json := none
  has_custom_timelines : Option Json := none
  possibly_sensitive : Option Json := none
  verified : Option Json := none
  profile_image_shape : Option Json := none
deriving DecidableEq

/-- The `Media` dataclass (models.py:60-65). -/
structure Media where
  type : Json
  url : Json
  preview_url : Option Json := none
  duration_ms : Option Json := none
deriving DecidableEq

/-- The non-recursive fields of the `Tweet` dataclass (models.py:68-80). -/
structure TweetData where
  id : Json
  text : Json
  created_at : String
  user : User
  favorite_count : Json
  retweet_count : Json
  reply_count : Json
  quote_count : Json
  media : Option (List Media)
  is_retweet : Bool
deriving DecidableEq

/-!
The `Tweet` dataclass, with its self-referential
`retweet_status : Optional[Tweet]` field (models.py:80); the optional
child gets a first-order companion type so that decidable equality and
structural recursion are available.
-/

mutual

inductive Tweet where
  | mk (data : TweetData) (child : OptTweet) : Tweet
deriving DecidableEq

inductive OptTweet where
  | none : OptTweet
  | some (t : Tweet) : OptTweet
deriving DecidableEq

end

/-- The non-recursive fields of a tweet. -/
def Tweet.data : Tweet → TweetData
  | .mk d _ => d

/-- The `retweet_status` field, as an `Option`. -/
def Tweet.retweet_status : Tweet → Option Tweet
  | .mk _ .none => none
  | .mk _ (.some r) => some r

/-- The `id` field. -/
def Tweet.id (t : Tweet) : Json := t.data.id

/-- The `text` field. -/
def Tweet.text (t : Tweet) : Json := t.data.text

/-- The `created_at` field. -/
def Tweet.created_at (t : Tweet) : String := t.data.created_at

/-- The `is_retweet` field. -/
def Tweet.is_retweet (t : Tweet) : Bool := t.data.is_retweet

/-- The `favorite_count` field. -/
def Tweet.favorite_count (t : Tweet) : Json := t.data.favorite_count

/-- The `media` field. -/
def Tweet.media (t : Tweet) : Option (List Media) := t.data.media

/-- Models `result = data.get("tweet_results", {}).get("result", {})`
(models.py:85). -/
def Tweet.result_of (data : Json) : Except PyErr Json := do
  let tweet_results ← pyGetD data "tweet_results" (jobj [])
  pyGetD tweet_results "result" (jobj [])

/-- The legacy-block probe (models.py:86-88): `result.get("legacy", {})`,
falling back to `result.get("tweet", {}).get("legacy", {})` when the first
probe compares equal to `{}`. -/
def Tweet.legacy_of (data : Json) : Except PyErr Json := do
  let result ← Tweet.result_of data
  let legacy ← pyGetD result "legacy" (jobj [])
  if legacy.isEmptyObj then do
    let tw ← pyGetD result "tweet" (jobj [])
    pyGetD tw "legacy" (jobj [])
  else
    pure legacy

/-- The user construction inside `Tweet.from_api_response`
(models.py:89-108): the `core`-or-empty probe, the `user_results` legacy
chain, and the `User(...)` keyword arguments in source order, with
`created_at` parsed only when the raw lookup is truthy. -/
def Tweet.user_of (result : Json) : Except PyErr User := do
  -- core = result.get("core", {}) or {}   (models.py:89)
  let core0 ← pyGetD result "core" (jobj [])
  let core := if core0.falsy then jobj [] else core0
  let user_results ← pyGetD core "user_results" (jobj [])
  let uresult ← pyGetD user_results "result" (jobj [])
  let user_data ← pyGetD uresult "legacy" (jobj [])
  let uid ← pyGetD uresult "rest_id" (.str "")
  let uname ← pyGetD user_data "name" (.str "")
  let uscreen ← pyGetD user_data "screen_name" (.str "")
  let uimg ← pyGetD user_data "profile_image_url_https" (.str "")
  let ufollowers ← pyGetD user_data "followers_count" (.num 0)
  let ufriends ← pyGetD user_data "friends_count" (.num 0)
  let udesc ← pyGetOpt user_data "description"
  let ucreatedTest ← pyGetOpt user_data "created_at"
  let ucreated ←
    match ucreatedTest with
    | some v => if v.falsy then pure none else some <$> pyStrptime v
    | none => pure (none : Option String)
  pure { id := uid, name := uname, username := uscreen,
         profile_image_url := uimg, followers_count := ufollowers,
         following_count := ufriends, description := udesc, created_at := ucreated }

/-- The media parsing inside `Tweet.from_api_response`
(models.py:110-130): walks `legacy["extended_entities"]["media"]` when
both keys are present, building one `Media` per item with the
video-specific preview and duration fields. -/
def Tweet.media_of (legacy : Json) : Except PyErr (List Media) := do
  let hasEE ← pyIn "extended_entities" legacy
  if hasEE then do
    let ee ← pyIndexStr legacy "extended_entities"
    let hasMedia ← pyIn "media" ee
    if hasMedia then do
      let ms ← pyIndexStr ee "media"
      let items ← pyIterate ms
      items.foldlM (fun (acc : List Media) media_item => do
        let media_type ← pyGetD media_item "type" (.str "photo")
        let u1 ← pyGetD media_item "media_url_https" (.str "")
        let u2 ← pyGetD media_item "expanded_url" (.str "")
        let url := if u1.falsy then u2 else u1
        let preview ←
          if jsonEqStr media_type "video" then pyGetOpt media_item "media_url_https"
          else pure none
        let dur ←
          if jsonEqStr media_type "video" then do
            let vi ← pyGetD media_item "video_info" (jobj [])
            pyGetOpt vi "duration_millis"
          else pure (none : Option Json)
        let media : Media :=
          { type := media_type, url := url,
            preview_url := preview, duration_ms := dur }
        pure (acc ++ [media])) []
    else pure []
  else pure []

/-- Models `Tweet.from_api_response` (models.py:82-155), with an explicit
recursion-depth fuel standing in for Python's call stack (the recursive
call at models.py:137 re-wraps the embedded `retweeted_status_result`
fragment; real payloads are finite, so the fuel never runs out when it is
seeded with the size of the input).  The statements of the source run in
order: user construction, media parsing, retweet resolution, then the
`cls(...)` keyword arguments. -/
def Tweet.from_api_response_go : Nat → Json → Except PyErr Tweet
  | 0, _ => .error (.otherError "RecursionError")
  | fuel + 1, data => do
    let result ← Tweet.result_of data
    let legacy ← Tweet.legacy_of data
    let user ← Tweet.user_of result
    let media_list ← Tweet.media_of legacy
    -- retweet resolution (models.py:132-139)
    let is_retweet ← pyIn "retweeted_status_result" legacy
    let retweet_status ←
      if is_retweet then do
        let retweet_data ← pyGetD legacy "retweeted_status_result" (jobj [])
        let inner ← pyGetD retweet_data "result" (jobj [])
        let child ← Tweet.from_api_response_go fuel
          (jobj [("tweet_results", jobj [("result", inner)])])
        pure (OptTweet.some child)
      else pure OptTweet.none
    -- cls(...) (models.py:141-155), keyword arguments in source order
    let tid ← pyGetD legacy "id_str" (.str "")
    let ttext ← pyGetD legacy "full_text" (.str "")
    let createdRaw ← pyGetD legacy "created_at" (.str "")
    let created ← pyStrptime createdRaw
    let fav ← pyGetD legacy "favorite_count" (.num 0)
    let rtc ← pyGetD legacy "retweet_count" (.num 0)
    let rep ← pyGetD legacy "reply_count" (.num 0)
    let quo ← pyGetD legacy "quote_count" (.num 0)
    let tdata : TweetData :=
      { id := tid, text := ttext, created_at := created, user := user,
        favorite_count := fav, retweet_count := rtc, reply_count := rep,
        quote_count := quo,
        media := if media_list.isEmpty then none else some media_list,
        is_retweet := is_retweet }
    pure (Tweet.mk tdata retweet_status)

/-- Models `Tweet.from_api_response`, the fuel seeded large enough for any input. -/
def Tweet.from_api_response (data : Json) : Except PyErr Tweet :=
  Tweet.from_api_response_go data.size data

/-!
## Pagination driver (`TwitterClient.search_timeline` — client.py:301-388,
`TwitterClient.get_list_latest_tweets` — client.py:425-506)

The per-page request (`self._make_request`) is abstracted as a `fetch`
oracle from the current cursor value (Python `None` is `Json.null`) to
the response JSON; the `while True` loops take an explicit fuel, with
`outOfFuel` marking a run that is still looping when the fuel ends — a
loop that never terminates is `outOfFuel` for every fuel.
-/

/-- Python list slicing `xs[:n]`, including the negative-`n` form that
drops elements from the end. -/
def pySliceTo {α : Type} (xs : List α) (n : Int) : List α :=
  if 0 ≤ n then xs.take n.toNat else xs.take (xs.length - (-n).toNat)

/-- The deduplicating append of `search_timeline` (client.py:357-364) and
`get_user_tweets` (client.py:645-651):
`all_tweets.extend([t for t in new_tweets if t and t.id not in (set of accumulated ids)])`.
The `if tweet` test is dropped: a `Tweet` dataclass instance is always
truthy.  The membership set is built from `all_tweets` once per page, so
duplicates arriving inside one page are all kept. -/
def dedup_extend (all_tweets new_tweets : List Tweet) : List Tweet :=
  all_tweets ++
    new_tweets.filter (fun t => !((all_tweets.map Tweet.id).any (fun i => jsonIdEq t.id i)))

/-- Tweet extraction of one search page (client.py:348-355): entries of
every instruction that has them, keeping `itemContent` payloads whose
`__typename` is `"TimelineTweet"`, each mapped by `Tweet.from_api_response`. -/
def search_collect_tweets (instrs : List Json) : Except PyErr (List Tweet) :=
  instrs.foldlM (fun (acc : List Tweet) instruction => do
    let hasEntries ← pyIn "entries" instruction
    if hasEntries then do
      let entries ← pyIterate (← pyIndexStr instruction "entries")
      entries.foldlM (fun (acc2 : List Tweet) entry => do
        let hasContent ← pyIn "content" entry
        if hasContent then do
          let content ← pyIndexStr entry "content"
          let hasItem ← pyIn "itemContent" content
          if hasItem then do
            let tweet_data ← pyIndexStr content "itemContent"
            let tn ← pyGetOpt tweet_data "__typename"
            if optEqStr tn "TimelineTweet" then do
              let t ← Tweet.from_api_response tweet_data
              pure (acc2 ++ [t])
            else pure acc2
          else pure acc2
        else pure acc2) acc
    else pure acc) []

/-- The bottom-cursor scan of `search_timeline` (client.py:371-382).
`cursor0` is the cursor variable's current value: the scan only
reassigns it when a `cursor-bottom-` entry is found — there is no reset
between pages.  A hit through a top-level `entry` breaks the outer loop;
a hit inside an `entries` list breaks only the inner loop, so later
instructions may overwrite the cursor again. -/
def search_scan_cursor (instrs : List Json) (cursor0 : Json) : Except PyErr Json := do
  let st ← instrs.foldlM (fun (st : Json × Bool) instruction => do
    if st.2 then
      pure st
    else do
      let hasEntry ← pyIn "entry" instruction
      let hitTop ←
        if hasEntry then do
          let entry ← pyIndexStr instruction "entry"
          let eid ← pyIndexStr entry "entryId"
          pyStartsWith eid "cursor-bottom-"
        else pure false
      if hitTop then do
        let entry ← pyIndexStr instruction "entry"
        let content ← pyIndexStr entry "content"
        let v ← pyIndexStr content "value"
        pure (v, true)
      else do
        let hasEntries ← pyIn "entries" instruction
        if hasEntries then do
          let entries ← pyIterate (← pyIndexStr instruction "entries")
          let inner ← entries.foldlM (fun (st2 : Json × Bool) entry => do
            if st2.2 then
              pure st2
            else do
              let eid ← pyIndexStr entry "entryId"
              if (← pyStartsWith eid "cursor-bottom-") then do
                let content ← pyIndexStr entry "content"
                let v ← pyIndexStr content "value"
                pure (v, true)
              else pure st2) (st.1, false)
          pure (inner.1, false)
        else pure st) (cursor0, false)
  pure st.1

/-- Outcome of one iteration of a pagination `while True` body. -/
inductive PageStep where
  | done (tweets : List Tweet)
  | failed (e : PyErr)
  | next (cursor : Json) (acc : List Tweet)
deriving DecidableEq

/-- One iteration of the `search_timeline` loop body (client.py:323-386):
fetch the page, extract and map its tweets, extend the accumulator with
id-dedup, truncate and stop when `count` is reached (`count = -1` never
is), rescan the cursor (keeping the previous page's value when the page
has none), and stop when the cursor is falsy or the page mapped no
tweets. -/
def search_timeline_iter (fetch : Json → Except PyErr Json) (count : Int)
    (cursor : Json) (all_tweets : List Tweet) : PageStep :=
  let comp : Except PyErr (Sum (List Tweet) (Json × List Tweet)) := do
    let response ← fetch cursor
    let d1 ← pyGetD response "data" (jobj [])
    let d2 ← pyGetD d1 "search_by_raw_query" (jobj [])
    let d3 ← pyGetD d2 "search_timeline" (jobj [])
    let d4 ← pyGetD d3 "timeline" (jobj [])
    let timeline ← pyGetD d4 "instructions" (jarr [])
    let instrs ← pyIterate timeline
    let new_tweets ← search_collect_tweets instrs
    let acc := dedup_extend all_tweets new_tweets
    if count ≠ -1 ∧ (acc.length : Int) ≥ count then
      return .inl (pySliceTo acc count)
    let cursor2 ← search_scan_cursor instrs cursor
    if cursor2.falsy ∨ new_tweets.isEmpty then
      return .inl acc
    return .inr (cursor2, acc)
  match comp with
  | .ok (.inl ts) => .done ts
  | .ok (.inr (c, a)) => .next c a
  | .error e => .failed e

/-- Result of running a pagination loop under a fuel. -/
inductive PaginationResult where
  | done (tweets : List Tweet)
  | failed (e : PyErr)
  | outOfFuel
deriving DecidableEq

/-- The `search_timeline` `while True` loop, one fuel unit per iteration. -/
def search_timeline_go (fetch : Json → Except PyErr Json) (count : Int) :
    Json → List Tweet → Nat → PaginationResult
  | _, _, 0 => .outOfFuel
  | cursor, acc, fuel + 1 =>
    match search_timeline_iter fetch count cursor acc with
    | .done ts => .done ts
    | .failed e => .failed e
    | .next c a => search_timeline_go fetch count c a fuel

/-- Models `TwitterClient.search_timeline` (client.py:301-388): cursor starts as
`None`, the accumulator empty. -/
def search_timeline (fetch : Json → Except PyErr Json) (count : Int)
    (fuel : Nat) : PaginationResult :=
  search_timeline_go fetch count Json.null [] fuel

/-- One iteration of the `get_list_latest_tweets` loop body
(client.py:444-504): fetch the page, stop on a falsy `instructions`
value, walk `timeline[0]`'s entries collecting item and module tweets and
the bottom cursor (the cursor variable is reset to `None` each page),
extend the accumulator with **no deduplication** (client.py:495),
truncate and stop when `count` is reached, and stop when the cursor is
falsy or no new tweets arrived. -/
def list_latest_iter (fetch : Json → Except PyErr Json) (count : Int)
    (cursor : Json) (all_tweets : List Tweet) : PageStep :=
  let comp : Except PyErr (Sum (List Tweet) (Json × List Tweet)) := do
    let response ← fetch cursor
    let d1 ← pyGetD response "data" (jobj [])
    let d2 ← pyGetD d1 "list" (jobj [])
    let d3 ← pyGetD d2 "tweets_timeline" (jobj [])
    let d4 ← pyGetD d3 "timeline" (jobj [])
    let timeline ← pyGetD d4 "instructions" (jarr [])
    if timeline.falsy then
      return .inl all_tweets
    let first ← pyIndex0 timeline
    let entries ← pyGetD first "entries" (jarr [])
    let entriesL ← pyIterate entries
    let st ← entriesL.foldlM (fun (st : List Tweet × Json) entry => do
      let content ← pyGetD entry "content" (jobj [])
      let tn ← pyGetOpt content "__typename"
      if optEqStr tn "TimelineTimelineItem" then do
        let tweet_data ← pyIndexStr content "itemContent"
        let t ← Tweet.from_api_response tweet_data
        pure (st.1 ++ [t], st.2)
      else do
        let isBottomCursor ←
          if optEqStr tn "TimelineTimelineCursor" then do
            let ct ← pyGetOpt content "cursorType"
            pure (optEqStr ct "Bottom")
          else pure false
        if isBottomCursor then do
          let v ← pyGetOpt content "value"
          pure (st.1, v.getD Json.null)
        else if optEqStr tn "TimelineTimelineModule" then do
          let items ← pyIndexStr content "items"
          let itemsL ← pyIterate items
          let acc2 ← itemsL.foldlM (fun (acc2 : List Tweet) item => do
            let it ← pyIndexStr item "item"
            let tweet_data ← pyIndexStr it "itemContent"
            let t ← Tweet.from_api_response tweet_data
            pure (acc2 ++ [t])) st.1
          pure (acc2, st.2)
        else pure st) ([], Json.null)
    let new_tweets := st.1
    let cursor2 := st.2
    let acc := all_tweets ++ new_tweets
    if count ≠ -1 ∧ (acc.length : Int) ≥ count then
      return .inl (pySliceTo acc count)
    if cursor2.falsy ∨ new_tweets.isEmpty then
      return .inl acc
    return .inr (cursor2, acc)
  match comp with
  | .ok (.inl ts) => .done ts
  | .ok (.inr (c, a)) => .next c a
  | .error e => .failed e

/-- The `get_list_latest_tweets` `while True` loop. -/
def list_latest_go (fetch : Json → Except PyErr Json) (count : Int) :
    Json → List Tweet → Nat → PaginationResult
  | _, _, 0 => .outOfFuel
  | cursor, acc, fuel + 1 =>
    match list_latest_iter fetch count cursor acc with
    | .done ts => .done ts
    | .failed e => .failed e
    | .next c a => list_latest_go fetch count c a fuel

/-- Models `TwitterClient.get_list_latest_tweets` (client.py:425-506). -/
def get_list_latest_tweets (fetch : Json → Except PyErr Json) (count : Int)
    (fuel : Nat) : PaginationResult :=
  list_latest_go fetch count Json.null [] fuel

/-!
## Balance check and constructor gate
(`TwitterClient.check_balance` — client.py:255-299,
`TwitterClient.__init__` — client.py:27-70)
-/

/-- Digits to a natural number. -/
def digitsToNat (cs : List Char) : Nat :=
  cs.foldl (fun a c => a * 10 + (c.toNat - '0'.toNat)) 0

/-- Python `int(s)`: optional surrounding spaces, an optional sign, then
decimal digits; anything else raises `ValueError` (`none` here). -/
def pyIntOfString (s : String) : Option Int :=
  let cs := (((s.toList.dropWhile (fun c => c = ' ')).reverse.dropWhile
    (fun c => c = ' ')).reverse)
  match cs with
  | '-' :: rest =>
    if rest ≠ [] && allDigits rest then some (-(digitsToNat rest : Int)) else none
  | '+' :: rest =>
    if rest ≠ [] && allDigits rest then some (digitsToNat rest : Int) else none
  | rest =>
    if rest ≠ [] && allDigits rest then some (digitsToNat rest : Int) else none

/-- What the balance endpoint round trip yields: the body text plus its
JSON parse (`none` for `json.JSONDecodeError`), or a connection-level
failure (any of the `httpx` exception types caught at client.py:289-295). -/
inductive BalanceFetch where
  | ok (text : String) (parsed : Option Json)
  | connectionError
deriving DecidableEq

/-- Models `TwitterClient.check_balance` (client.py:255-299): a bare integer
body is returned as is (Python `bool` being an `int` counts here); a dict
with `code == -1` yields 0; any other parsed body falls back to
`int(response.text)`, and every failure — unreachable endpoint,
unparsable text, failed `int` conversion, empty body — yields 0. -/
def check_balance : BalanceFetch → Int
  | .connectionError => 0
  | .ok text parsed =>
    match parsed with
    | some (.num n) => n
    | some (.bool b) => if b then 1 else 0
    | some j =>
      if (match j with
          | .obj kvs => optEqNum (kvs.find? "code") (-1)
          | _ => false) then 0
      else (pyIntOfString text).getD 0
    | none => if text ≠ "" then (pyIntOfString text).getD 0 else 0

/-- The observable constructor behaviour of `TwitterClient.__init__`
(client.py:27-70): a falsy resolved API key (the `api_key or
os.getenv(...)` value) raises `ApiKeyError`; otherwise the balance check
runs and a balance below 100 raises `InsufficientCreditsError`; a
successful construction carries its checked balance. -/
def TwitterClient.init (api_key : Option String) (balanceFetch : BalanceFetch) :
    Except PyErr Int :=
  match api_key with
  | none => .error .apiKey
  | some k =>
    if k = "" then .error .apiKey
    else
      let balance := check_balance balanceFetch
      if balance < 100 then .error .insufficientCredits else .ok balance

/-- Decidable equality on `Except`, for concrete evaluation. -/
instance {ε α : Type} [DecidableEq ε] [DecidableEq α] : DecidableEq (Except ε α) :=
  fun x y =>
    match x, y with
    | .ok a, .ok b =>
      if h : a = b then .isTrue (by rw [h]) else .isFalse (fun hh => h (Except.ok.inj hh))
    | .error a, .error b =>
      if h : a = b then .isTrue (by rw [h]) else .isFalse (fun hh => h (Except.error.inj hh))
    | .ok _, .error _ => .isFalse (fun hh => Except.noConfusion hh)
    | .error _, .ok _ => .isFalse (fun hh => Except.noConfusion hh)

/-!
## Concrete fixtures used by the claim theorems
-/

/-- A rate-limit error envelope: `code` 88 (client.py:120). -/
def env88 : Json := jobj [("errors", jarr [jobj [("code", .num 88)]])]

/-- A response whose body is the rate-limit envelope on every attempt. -/
def resp88 : HttpResponse := ⟨"x", some env88⟩

/-- Transport returning the rate-limit envelope on every attempt. -/
def trans88 : Nat → TransportResult := fun _ => .ok resp88

/-- Config with `max_retries = 3`, defaults otherwise (client.py:31-34). -/
def cfgC1 : RetryConfig := ⟨3, 1, 32, 2⟩

/-- Config with `max_retries = 2`. -/
def cfg2 : RetryConfig := ⟨2, 1, 32, 2⟩

/-- The constructor default configuration (client.py:31-34). -/
def cfg10 : RetryConfig := ⟨10, 1, 32, 2⟩

/-- An Apidance-style insufficient-credits envelope (client.py:136-140). -/
def insuffEnv : Json :=
  jobj [("code", .num 1), ("msg", .str "Insufficient api counts, please recharge")]

/-- Response carrying the insufficient-credits envelope. -/
def respInsuff : HttpResponse := ⟨"x", some insuffEnv⟩

/-- A successful body with a `data` field. -/
def goodEnv : Json := jobj [("data", jobj [("x", .num 1)])]

/-- Response carrying the successful body. -/
def respGood : HttpResponse := ⟨"g", some goodEnv⟩

/-- Transport: insufficient-credits envelope on attempt 1, success after. -/
def transFatalThenGood : Nat → TransportResult :=
  fun a => if a = 1 then .ok respInsuff else .ok respGood

/-- Transport returning the insufficient-credits envelope on every attempt. -/
def transInsuff : Nat → TransportResult := fun _ => .ok respInsuff

/-- An invalid-input envelope: `code` 366 (client.py:125-126). -/
def resp366 : HttpResponse :=
  ⟨"x", some (jobj [("errors", jarr [jobj [("code", .num 366), ("message", .str "bad")]])])⟩

/-- Transport returning the invalid-input envelope on every attempt. -/
def trans366 : Nat → TransportResult := fun _ => .ok resp366

/-- A bare JSON `null` body (`response.json()` gives Python `None`). -/
def respNull : HttpResponse := ⟨"null", some .null⟩

/-- Transport returning the bare-null body on every attempt. -/
def transNull : Nat → TransportResult := fun _ => .ok respNull

/-- Transport: rate-limit envelope on attempt 1, bare null after. -/
def trans88ThenNull : Nat → TransportResult :=
  fun a => if a = 1 then .ok resp88 else .ok respNull

/-- The `local_rate_limited` sentinel body (client.py:145), which is not
valid JSON. -/
def respSentinel : HttpResponse := ⟨"local_rate_limited", none⟩

/-- A Twitter-style error envelope with the given code and message. -/
def mkErrResp (c : Int) (m : String) : HttpResponse :=
  ⟨"x", some (jobj [("errors", jarr [jobj [("code", .num c), ("message", .str m)]])])⟩

/-- A well-formed timestamp in the mapper's fixed format. -/
def tsValid1 : String := "Thu Feb 22 02:18:49 +0000 2024"

/-- A second well-formed timestamp. -/
def tsValid2 : String := "Fri Feb 23 03:00:00 +0000 2024"

/-- A minimal legacy block for tweet id 1. -/
def legacy1 : Json := jobj [("id_str", .str "1"), ("full_text", .str "hi"),
  ("created_at", .str tsValid1)]

/-- A fragment whose result wraps `legacy1`. -/
def frag1 : Json := jobj [("tweet_results", jobj [("result", jobj [("legacy", legacy1)])])]

/-- The default user the mapper builds when the fragment has no `core`. -/
def user0 : User :=
  { id := .str "", name := .str "", username := .str "",
    profile_image_url := .str "", followers_count := .num 0, following_count := .num 0 }

/-- The tweet mapped from `frag1`. -/
def t1 : Tweet := Tweet.mk
  { id := .str "1", text := .str "hi", created_at := tsValid1, user := user0,
    favorite_count := .num 0, retweet_count := .num 0, reply_count := .num 0,
    quote_count := .num 0, media := none, is_retweet := false } .none

/-- A minimal legacy block for tweet id 2. -/
def legacy2 : Json := jobj [("id_str", .str "2"), ("full_text", .str "yo"),
  ("created_at", .str tsValid2)]

/-- The tweet mapped from the fragment wrapping `legacy2`. -/
def t2 : Tweet := Tweet.mk
  { id := .str "2", text := .str "yo", created_at := tsValid2, user := user0,
    favorite_count := .num 0, retweet_count := .num 0, reply_count := .num 0,
    quote_count := .num 0, media := none, is_retweet := false } .none

/-- A legacy block carrying a `retweeted_status_result` that embeds
`legacy1`. -/
def legacyRT : Json := jobj [("id_str", .str "9"), ("full_text", .str "RT"),
  ("created_at", .str tsValid2),
  ("retweeted_status_result", jobj [("result", jobj [("legacy", legacy1)])])]

/-- A retweet fragment wrapping `legacyRT`. -/
def fragRT : Json := jobj [("tweet_results", jobj [("result", jobj [("legacy", legacyRT)])])]

/-- The tweet mapped from `fragRT`: flagged as retweet, child mapped from
the embedded fragment. -/
def tRT : Tweet := Tweet.mk
  { id := .str "9", text := .str "RT", created_at := tsValid2, user := user0,
    favorite_count := .num 0, retweet_count := .num 0, reply_count := .num 0,
    quote_count := .num 0, media := none, is_retweet := true } (.some t1)

/-- A legacy block with a short `full_text` for a long-form tweet. -/
def legacyNote : Json := jobj [("id_str", .str "5"),
  ("full_text", .str "short truncated text"), ("created_at", .str tsValid1)]

/-- A fragment whose result carries both the legacy block and a
`note_tweet` block holding the full long-form text. -/
def fragNote : Json := jobj [("tweet_results", jobj [("result",
  jobj [("legacy", legacyNote),
        ("note_tweet", jobj [("note_tweet_results", jobj [("result",
          jobj [("text", .str "the full long note text")])])])])])]

/-- The tweet mapped from `fragNote`. -/
def tNote : Tweet := Tweet.mk
  { id := .str "5", text := .str "short truncated text", created_at := tsValid1,
    user := user0, favorite_count := .num 0, retweet_count := .num 0,
    reply_count := .num 0, quote_count := .num 0, media := none,
    is_retweet := false } .none

/-- A search timeline `itemContent` wrapping `legacy1`. -/
def itemContent1 : Json := jobj [("__typename", .str "TimelineTweet"),
  ("tweet_results", jobj [("result", jobj [("legacy", legacy1)])])]

/-- A search timeline `itemContent` wrapping `legacy2`. -/
def itemContent2 : Json := jobj [("__typename", .str "TimelineTweet"),
  ("tweet_results", jobj [("result", jobj [("legacy", legacy2)])])]

/-- A search timeline tweet entry for `itemContent1`. -/
def searchEntry1 : Json := jobj [("entryId", .str "tweet-1"),
  ("content", jobj [("itemContent", itemContent1)])]

/-- A search timeline tweet entry for `itemContent2`. -/
def searchEntry2 : Json := jobj [("entryId", .str "tweet-2"),
  ("content", jobj [("itemContent", itemContent2)])]

/-- A bottom-cursor entry whose cursor value is `"cA"`. -/
def searchCursorEntry : Json := jobj [("entryId", .str "cursor-bottom-0"),
  ("content", jobj [("value", .str "cA")])]

/-- Search page 1: one tweet and a bottom cursor `"cA"`. -/
def searchPage1 : Json := jobj [("data", jobj [("search_by_raw_query",
  jobj [("search_timeline", jobj [("timeline", jobj [("instructions",
    jarr [jobj [("entries", jarr [searchEntry1, searchCursorEntry])]])])])])])]

/-- Search page 2: one tweet, **no** bottom cursor anywhere. -/
def searchPage2 : Json := jobj [("data", jobj [("search_by_raw_query",
  jobj [("search_timeline", jobj [("timeline", jobj [("instructions",
    jarr [jobj [("entries", jarr [searchEntry2])]])])])])])]

/-- The instruction list of `searchPage2`. -/
def searchPage2Instrs : List Json := [jobj [("entries", jarr [searchEntry2])]]

/-- The search transport: cursor `"cA"` serves page 2, anything else
(the initial `None`) serves page 1. -/
def fetchC6 : Json → Except PyErr Json :=
  fun c => if c = .str "cA" then .ok searchPage2 else .ok searchPage1

/-- A list-timeline item entry wrapping `itemContent1`. -/
def listItemEntry : Json := jobj [("content",
  jobj [("__typename", .str "TimelineTimelineItem"), ("itemContent", itemContent1)])]

/-- A list-timeline bottom-cursor entry with value `"c1"`. -/
def listCursorEntry : Json := jobj [("content",
  jobj [("__typename", .str "TimelineTimelineCursor"), ("cursorType", .str "Bottom"),
        ("value", .str "c1")])]

/-- List page 1: the tweet with id 1 and a bottom cursor `"c1"`. -/
def listPage1 : Json := jobj [("data", jobj [("list", jobj [("tweets_timeline",
  jobj [("timeline", jobj [("instructions",
    jarr [jobj [("entries", jarr [listItemEntry, listCursorEntry])]])])])])])]

/-- List page 2: the same tweet with id 1 again, no cursor. -/
def listPage2 : Json := jobj [("data", jobj [("list", jobj [("tweets_timeline",
  jobj [("timeline", jobj [("instructions",
    jarr [jobj [("entries", jarr [listItemEntry])]])])])])])]

/-- The list transport: cursor `"c1"` serves page 2, anything else the
first page. -/
def fetchC7 : Json → Except PyErr Json :=
  fun c => if c = .str "c1" then .ok listPage2 else .ok listPage1

/-!
# Theorems
-/

/-- Binding `Except.ok a >>= f` reduces to `f a`. -/
theorem except_bind_ok {ε α β : Type} (a : α) (f : α → Except ε β) :
    (Except.ok a >>= f) = f a := rfl

/-- Binding `Except.error e >>= f` short-circuits. -/
theorem except_bind_error {ε α β : Type} (e : ε) (f : α → Except ε β) :
    ((Except.error e : Except ε α) >>= f) = .error e := rfl

/-- On `Except`, `pure` is `Except.ok`. -/
theorem except_pure {ε α : Type} (a : α) : (pure a : Except ε α) = .ok a := rfl

/-- On `Except`, `throw` is `Except.error`. -/
theorem except_throw {ε α : Type} (e : ε) : (throw e : Except ε α) = .error e := rfl

/-- Inversion of a successful `Except` bind. -/
theorem except_bind_eq_ok {ε α β : Type} {a : Except ε α} {f : α → Except ε β} {b : β}
    (h : (a >>= f) = .ok b) : ∃ x, a = .ok x ∧ f x = .ok b := by
  cases a with
  | ok v => exact ⟨v, rfl, by simpa [except_bind_ok] using h⟩
  | error e => rw [except_bind_error] at h; exact absurd h (by simp)

/-- Before the final attempt, a code-88 body classifies as retry. -/
theorem should_retry_88_before_final (mr a : Nat) (h : a < mr) :
    should_retry mr resp88 a = .ok true := by
  have h1 : ¬ a ≥ mr := Nat.not_le.mpr h
  have h2 : ¬ a = mr := Nat.ne_of_lt h
  simp [should_retry, resp88, env88, h1, h2, jobj, jarr, JsonFields.ofList,
    JsonList.ofList, pyIn, JsonFields.hasKey, pyIndexStr, JsonFields.find?,
    pyIndex0, pyGetOpt, optEqNum, jsonEqNum, Json.isNull, except_bind_ok,
    except_bind_error, except_pure]

/-- At (or beyond) the final attempt the classifier accepts every
response before even parsing it (client.py:102-104). -/
theorem should_retry_final (mr a : Nat) (r : HttpResponse) (h : a ≥ mr) :
    should_retry mr r a = .ok false := by
  unfold should_retry
  rw [if_pos h]
  rfl

/-- Backoff-schedule bookkeeping: prepending the delay of attempt `a`. -/
theorem delay_range_shift (cfg : RetryConfig) (a m : Nat) (ds : List ℚ) :
    (ds ++ [calculate_retry_delay cfg a]) ++
      (List.range m).map (fun i => calculate_retry_delay cfg (a + 1 + i)) =
    ds ++ (List.range (m + 1)).map (fun i => calculate_retry_delay cfg (a + i)) := by
  rw [List.append_assoc, List.range_succ_eq_map, List.map_cons, List.map_map,
    List.singleton_append, Nat.add_zero]
  congr 2
  apply List.map_congr_left
  intro i _
  simp only [Function.comp]
  congr 1
  omega

/-- Running the retry loop from attempt `a` with `r` iterations left when
every attempt yields the code-88 envelope: sleeps
`calculate_retry_delay` after each non-final attempt, then returns the
envelope itself as the parsed body of the final attempt. -/
theorem make_request_go_88 (cfg : RetryConfig) :
    ∀ (r a n : Nat) (le : Option PyErr) (ds : List ℚ),
      a + r = cfg.max_retries + 1 → 1 ≤ r →
      make_request_go cfg trans88 a r le ds n =
        { result := .value env88,
          delays := ds ++ (List.range (r - 1)).map
            (fun i => calculate_retry_delay cfg (a + i)),
          attempts := n + r } := by
  intro r
  induction r with
  | zero => intro a n le ds hsum hr; omega
  | succ r' ih =>
    intro a n le ds hsum _
    by_cases hfin : a ≥ cfg.max_retries
    · have hr0 : r' = 0 := by omega
      subst hr0
      simp only [make_request_go, trans88]
      rw [should_retry_final _ _ _ hfin]
      simp [resp88]
    · have hlt : a < cfg.max_retries := Nat.lt_of_not_ge hfin
      have hr1 : 1 ≤ r' := by omega
      simp only [make_request_go, trans88]
      rw [should_retry_88_before_final _ _ hlt]
      rw [ih (a + 1) (n + 1) le (ds ++ [calculate_retry_delay cfg a]) (by omega) hr1]
      rw [show r' + 1 - 1 = (r' - 1) + 1 by omega]
      rw [← delay_range_shift cfg a (r' - 1) ds]
      rw [show n + 1 + r' = n + (r' + 1) by omega]

/-- C1: for a request whose body carries the code-88 (rate-limit)
envelope on every attempt, the engine retries with the documented
exponential backoff — the delay slept after attempt `k` is
`min(initial_retry_delay * backoff_factor^(k-1), max_retry_delay)` — but,
against the claim, it never raises `RateLimitError`: after the final
attempt it returns the parsed error envelope itself, because the
`attempt >= max_retries` guard (client.py:103) returns `False` before
the code-88 branch (client.py:120-123) can raise, leaving that raise
unreachable dead code. -/
theorem rate_limit_exhaustion_returns_envelope (cfg : RetryConfig)
    (h : 1 ≤ cfg.max_retries) :
    make_request cfg trans88 =
      { result := .value env88,
        delays := (List.range (cfg.max_retries - 1)).map
          (fun i => calculate_retry_delay cfg (1 + i)),
        attempts := cfg.max_retries } ∧
    (∀ k : Nat, calculate_retry_delay cfg k =
      min (cfg.initial_retry_delay * cfg.backoff_factor ^ (k - 1))
        cfg.max_retry_delay) := by
  constructor
  · have hgo := make_request_go_88 cfg cfg.max_retries 1 0 none [] (by omega) h
    simpa [make_request] using hgo
  · intro k
    rfl

/-- Witness for C1 at `max_retries = 3`. -/
theorem rate_limit_exhaustion_returns_envelope_witness :
    1 ≤ cfgC1.max_retries ∧
    make_request cfgC1 trans88 =
      { result := .value env88,
        delays := (List.range (cfgC1.max_retries - 1)).map
          (fun i => calculate_retry_delay cfgC1 (1 + i)),
        attempts := cfgC1.max_retries } ∧
    (make_request cfgC1 trans88).delays = [1, 2] := by
  refine ⟨by decide, (rate_limit_exhaustion_returns_envelope cfgC1 (by decide)).1, ?_⟩
  have hds : (make_request cfgC1 trans88).delays =
      [calculate_retry_delay cfgC1 1, calculate_retry_delay cfgC1 2] := rfl
  rw [hds]
  norm_num [calculate_retry_delay, cfgC1]

/-- C2: a fatal-coded envelope is *not* always raised immediately.  The
insufficient-credits envelope classified at attempt 1 of a 2-attempt
budget is re-raised by the inner `except fatal_exceptions` handler into
the outer `except Exception` handler of the same iteration
(client.py:219-221 and 243-249), which records it and retries; the run
then returns the next attempt's parsed body.  With the envelope on both
attempts, the final attempt returns the fatal envelope itself as the
parsed body instead of raising.  Only errors outside the
`fatal_exceptions` tuple, such as `InvalidInputError` (code 366), abort
immediately with no further attempts. -/
theorem fatal_envelope_retried_and_final_body_returned :
    should_retry 2 respInsuff 1 = .error .insufficientCredits ∧
    make_request cfg2 transFatalThenGood =
      { result := .value goodEnv, delays := [calculate_retry_delay cfg2 1],
        attempts := 2 } ∧
    make_request cfg2 transInsuff =
      { result := .value insuffEnv, delays := [calculate_retry_delay cfg2 1],
        attempts := 2 } ∧
    make_request cfg10 trans366 =
      { result := .error (.invalidInput (.str "bad")), delays := [], attempts := 1 } :=
  ⟨rfl, rfl, rfl, rfl⟩

/-- Supporting lemma for C3: on attempts before the budget ceiling the
classifier maps a Twitter-style envelope `{errors: [{code: c, message:
m}]}` as follows — 88 and 64 retry, 139 accepts, 366 raises
`InvalidInputError`, and every other code (32 included) raises
`TwitterPlatformError`; `AuthenticationError` is never produced
(client.py:114-134). -/
theorem classifier_code_mapping (mr a : Nat) (c : Int) (m : String) (h : a < mr) :
    should_retry mr (mkErrResp c m) a =
      (if c = 88 then .ok true
       else if c = 366 then .error (.invalidInput (.str m))
       else if c = 139 then .ok false
       else if c = 64 then .ok true
       else .error (.twitterPlatform (.str m))) := by
  have h1 : ¬ a ≥ mr := Nat.not_le.mpr h
  have h2 : ¬ a = mr := Nat.ne_of_lt h
  by_cases e88 : c = 88 <;> by_cases e366 : c = 366 <;> by_cases e139 : c = 139 <;>
      by_cases e64 : c = 64 <;>
    simp [should_retry, mkErrResp, h1, h2, e88, e366, e139, e64, jobj, jarr,
      JsonFields.ofList, JsonList.ofList, pyIn, JsonFields.hasKey, pyIndexStr,
      JsonFields.find?, pyIndex0, pyGetOpt, pyGetD, optEqNum, jsonEqNum,
      Json.isNull, except_bind_ok, except_bind_error, except_pure, except_throw]

/-- C3 counterexample: at attempt 1 of a 10-attempt budget, the code-32
envelope raises `TwitterPlatformError`, not the `AuthenticationError`
the claim names (no code path of `_should_retry` produces
`AuthenticationError`), and the code-64 envelope is retried instead of
raising a platform error (client.py:129-132). -/
theorem classifier_code32_not_authentication :
    should_retry 10 (mkErrResp 32 "bad auth") 1 =
      .error (.twitterPlatform (.str "bad auth")) ∧
    should_retry 10 (mkErrResp 32 "bad auth") 1 ≠
      .error (.authentication (.str "bad auth")) ∧
    should_retry 10 (mkErrResp 64 "suspended") 1 = .ok true := by
  refine ⟨rfl, ?_, rfl⟩
  decide

/-- C3 (amended): the classifier mapping of claim C3 with the corrected
kinds — code 32, like every nonzero code other than 88/366/139/64, maps
to an immediate `TwitterPlatformError`; 139 accepts; 366 raises
`InvalidInputError`; 88 and 64 retry — stated for attempts before the
budget ceiling (at the ceiling the classifier accepts everything). -/
theorem classifier_code_mapping_amended (mr a : Nat) (m : String) (h : a < mr) :
    should_retry mr (mkErrResp 32 m) a = .error (.twitterPlatform (.str m)) ∧
    should_retry mr (mkErrResp 139 m) a = .ok false ∧
    should_retry mr (mkErrResp 366 m) a = .error (.invalidInput (.str m)) ∧
    should_retry mr (mkErrResp 88 m) a = .ok true ∧
    should_retry mr (mkErrResp 64 m) a = .ok true ∧
    (∀ c : Int, c ∉ ([88, 366, 139, 64] : List Int) →
      should_retry mr (mkErrResp c m) a = .error (.twitterPlatform (.str m))) := by
  refine ⟨?_, ?_, ?_, ?_, ?_, ?_⟩
  · rw [classifier_code_mapping mr a 32 m h]; norm_num
  · rw [classifier_code_mapping mr a 139 m h]; norm_num
  · rw [classifier_code_mapping mr a 366 m h]; norm_num
  · rw [classifier_code_mapping mr a 88 m h]; norm_num
  · rw [classifier_code_mapping mr a 64 m h]; norm_num
  · intro c hc
    simp only [List.mem_cons, List.not_mem_nil, or_false, not_or] at hc
    obtain ⟨h88, h366, h139, h64⟩ := hc
    rw [classifier_code_mapping mr a c m h]
    simp [h88, h366, h139, h64]

/-- Witness for the amended C3 mapping at attempt 1, budget 10. -/
theorem classifier_code_mapping_amended_witness :
    (1 : Nat) < 10 ∧
    should_retry 10 (mkErrResp 32 "m") 1 = .error (.twitterPlatform (.str "m")) :=
  ⟨by decide, (classifier_code_mapping_amended 10 1 "m" (by decide)).1⟩

/-- C4: exhausting the budget on transient conditions does not raise.
With the code-88 envelope on attempt 1 (classified transient, slept and
retried) and a bare-null body on the final attempt, the final-attempt
guard accepts the unclassified body and `_make_request` returns the
parsed `null` — the caller receives Python `None` instead of the last
transient error the claim requires. -/
theorem transient_exhaustion_returns_none :
    should_retry 2 resp88 1 = .ok true ∧
    make_request cfg2 trans88ThenNull =
      { result := .value .null, delays := [calculate_retry_delay cfg2 1],
        attempts := 2 } :=
  ⟨rfl, rfl⟩

/-- C5: the `local_rate_limited` sentinel body (unparsable as JSON) is
classified retry, but a bare JSON `null` body on a non-final attempt is
*not*: the unguarded `"data" in response_data` membership test
(client.py:149) raises `TypeError` on `None`, which `_make_request`
records and re-raises after breaking out of the loop — one attempt, no
backoff, a `TypeError` surfaced to the caller. -/
theorem sentinel_retries_and_bare_null_raises_type_error :
    should_retry 10 respSentinel 1 = .ok true ∧
    should_retry 10 respNull 1 = .error .typeError ∧
    make_request cfg10 transNull =
      { result := .error .typeError, delays := [], attempts := 1 } :=
  ⟨rfl, rfl, rfl⟩

/-- The self-sustaining loop state of the C6 run: once the cursor holds
`"cA"` and both tweets are accumulated, every further iteration
re-fetches the cursor-less page 2 and returns to the same state. -/
theorem search_c6_cycle (fuel : Nat) :
    search_timeline_go fetchC6 (-1) (.str "cA") [t1, t2] fuel = .outOfFuel := by
  induction fuel with
  | zero => rfl
  | succ n ih =>
    have hstep : search_timeline_iter fetchC6 (-1) (.str "cA") [t1, t2] =
        .next (.str "cA") [t1, t2] := rfl
    simp only [search_timeline_go, hstep]
    exact ih

/-- C6: `search_timeline` never resets `cursor` between pages
(client.py:371-385), so when page 2 yields a tweet but no
`cursor-bottom-` entry, the stale page-1 cursor keeps the loop running:
the run is still looping after every fuel bound, i.e. it never
terminates, despite the page being entity-rich (second conjunct) and
cursor-absent (third conjunct: the scan leaves the cursor variable
unchanged from `None`). -/
theorem search_timeline_cursorless_page_loops_forever :
    (∀ fuel : Nat, search_timeline fetchC6 (-1) fuel = .outOfFuel) ∧
    search_collect_tweets searchPage2Instrs = .ok [t2] ∧
    search_scan_cursor searchPage2Instrs Json.null = .ok Json.null := by
  refine ⟨?_, rfl, rfl⟩
  intro fuel
  cases fuel with
  | zero => rfl
  | succ n =>
    cases n with
    | zero => rfl
    | succ m =>
      have h1 : search_timeline_iter fetchC6 (-1) Json.null [] =
          .next (.str "cA") [t1] := rfl
      have h2 : search_timeline_iter fetchC6 (-1) (.str "cA") [t1] =
          .next (.str "cA") [t1, t2] := rfl
      show search_timeline_go fetchC6 (-1) Json.null [] (m + 1 + 1) = .outOfFuel
      simp only [search_timeline_go, h1, h2]
      exact search_c6_cycle m

/-- C7 counterexample: `get_list_latest_tweets` extends the accumulator
with no deduplication (client.py:495); a second page repeating the first
page's tweet (same id `"1"`) grows the result to two entities with the
same id. -/
theorem list_latest_duplicate_id_grows_accumulation :
    get_list_latest_tweets fetchC7 (-1) 2 = .done [t1, t1] ∧
    t1.id = .str "1" :=
  ⟨rfl, rfl⟩

/-- C7 (amended): the deduplicating append used by `search_timeline` and
`get_user_tweets` skips every tweet whose id already occurs in the
accumulated list, so a page repeating only previously-accumulated ids
leaves the accumulation unchanged (first occurrences win, in arrival
order). -/
theorem dedup_extend_skips_already_accumulated_ids (acc new : List Tweet)
    (h : ∀ t ∈ new, ∃ u ∈ acc, jsonIdEq t.id u.id) :
    dedup_extend acc new = acc := by
  unfold dedup_extend
  have hnil : new.filter
      (fun t => !((acc.map Tweet.id).any (fun i => jsonIdEq t.id i))) = [] := by
    rw [List.filter_eq_nil_iff]
    intro t ht
    obtain ⟨u, hu, he⟩ := h t ht
    simp only [Bool.not_eq_true', Bool.not_eq_false]
    rw [List.any_eq_true]
    exact ⟨u.id, List.mem_map_of_mem _ hu, he⟩
  rw [hnil, List.append_nil]

/-- Witness for the amended C7 dedup property. -/
theorem dedup_extend_skips_already_accumulated_ids_witness :
    (∀ t ∈ [t1], ∃ u ∈ [t1], jsonIdEq t.id u.id) ∧
    dedup_extend [t1] [t1] = [t1] := by
  have h : ∀ t ∈ [t1], ∃ u ∈ [t1], jsonIdEq t.id u.id := by
    intro t ht
    rw [List.mem_singleton] at ht
    subst ht
    exact ⟨t1, List.mem_singleton.mpr rfl, by decide⟩
  exact ⟨h, dedup_extend_skips_already_accumulated_ids [t1] [t1] h⟩

/-- Every JSON value has positive size. -/
theorem Json.size_pos (j : Json) : 0 < j.size := by
  cases j <;> simp only [Json.size] <;> omega

/-- Unfolding: `from_api_response` is the fuelled body with one unit of fuel
available. -/
theorem from_api_response_as_go (d : Json) :
    Tweet.from_api_response d = Tweet.from_api_response_go (d.size - 1 + 1) d := by
  rw [Tweet.from_api_response]
  congr 1
  have := Json.size_pos d
  omega

/-- Text extraction along any successful run of the fuelled mapper body:
the mapped tweet's `text` is exactly `legacy.get("full_text", "")` for
the probed legacy block (models.py:143). -/
theorem text_of_go (fuel : Nat) (d : Json) (t : Tweet)
    (h : Tweet.from_api_response_go (fuel + 1) d = .ok t) :
    (Tweet.legacy_of d >>= fun l => pyGetD l "full_text" (Json.str "")) = .ok t.text := by
  simp only [Tweet.from_api_response_go] at h
  obtain ⟨result, hres, h⟩ := except_bind_eq_ok h
  obtain ⟨legacy, hleg, h⟩ := except_bind_eq_ok h
  obtain ⟨user, _, h⟩ := except_bind_eq_ok h
  obtain ⟨media_list, _, h⟩ := except_bind_eq_ok h
  obtain ⟨is_retweet, _, h⟩ := except_bind_eq_ok h
  rw [hleg, except_bind_ok]
  cases is_retweet with
  | true =>
    rw [if_pos rfl] at h
    obtain ⟨retweet_data, _, h⟩ := except_bind_eq_ok h
    obtain ⟨inner, _, h⟩ := except_bind_eq_ok h
    obtain ⟨child, _, h⟩ := except_bind_eq_ok h
    obtain ⟨rts, _, h⟩ := except_bind_eq_ok h
    obtain ⟨tid, _, h⟩ := except_bind_eq_ok h
    obtain ⟨ttext, htext, h⟩ := except_bind_eq_ok h
    obtain ⟨createdRaw, _, h⟩ := except_bind_eq_ok h
    obtain ⟨created, _, h⟩ := except_bind_eq_ok h
    obtain ⟨fav, _, h⟩ := except_bind_eq_ok h
    obtain ⟨rtc, _, h⟩ := except_bind_eq_ok h
    obtain ⟨rep, _, h⟩ := except_bind_eq_ok h
    obtain ⟨quo, _, h⟩ := except_bind_eq_ok h
    rw [htext]
    have hmk := Except.ok.inj h
    rw [← hmk]
    rfl
  | false =>
    rw [if_neg (by simp)] at h
    obtain ⟨rts, _, h⟩ := except_bind_eq_ok h
    obtain ⟨tid, _, h⟩ := except_bind_eq_ok h
    obtain ⟨ttext, htext, h⟩ := except_bind_eq_ok h
    obtain ⟨createdRaw, _, h⟩ := except_bind_eq_ok h
    obtain ⟨created, _, h⟩ := except_bind_eq_ok h
    obtain ⟨fav, _, h⟩ := except_bind_eq_ok h
    obtain ⟨rtc, _, h⟩ := except_bind_eq_ok h
    obtain ⟨rep, _, h⟩ := except_bind_eq_ok h
    obtain ⟨quo, _, h⟩ := except_bind_eq_ok h
    rw [htext]
    have hmk := Except.ok.inj h
    rw [← hmk]
    rfl

/-- C9 (amended): for every fragment the mapper accepts, the tweet's
`text` field is `legacy.get("full_text", "")` of the probed legacy block
— the extended/note-tweet text and the raw top-level text field play no
role (models.py:143 reads only `full_text`). -/
theorem mapper_text_is_legacy_full_text (d : Json) (t : Tweet)
    (h : Tweet.from_api_response d = .ok t) :
    (Tweet.legacy_of d >>= fun l => pyGetD l "full_text" (Json.str "")) = .ok t.text := by
  rw [from_api_response_as_go] at h
  exact text_of_go _ d t h

/-- Witness for the amended C9 statement at `frag1`. -/
theorem mapper_text_is_legacy_full_text_witness :
    Tweet.from_api_response frag1 = .ok t1 ∧
    (Tweet.legacy_of frag1 >>= fun l => pyGetD l "full_text" (Json.str "")) =
      .ok t1.text :=
  ⟨rfl, mapper_text_is_legacy_full_text frag1 t1 rfl⟩

/-- C9 counterexample: a fragment carrying a populated `note_tweet`
block with the full long-form text still maps to a tweet whose `text` is
the truncated legacy `full_text`; the richer note text is ignored. -/
theorem mapper_ignores_note_tweet_text :
    Tweet.from_api_response fragNote = .ok tNote ∧
    tNote.text = .str "short truncated text" ∧
    (do
      let r ← Tweet.result_of fragNote
      let nt ← pyGetD r "note_tweet" (jobj [])
      let ntr ← pyGetD nt "note_tweet_results" (jobj [])
      let res ← pyGetD ntr "result" (jobj [])
      pyGetD res "text" (Json.str "")) = .ok (.str "the full long note text") ∧
    Json.str "short truncated text" ≠ .str "the full long note text" :=
  ⟨rfl, rfl, rfl, by decide⟩

/-- C8: the mapper is not total on empty fragments — on `{}` (and on the
`{"tweet_results": {"result": {}}}` placeholder that upstream returns
for deleted tweets) every probe defaults to an empty legacy block and
`datetime.strptime("", ...)` at models.py:144-146 raises `ValueError`
instead of returning "absent".  The retweet half of the claim holds: a
fragment whose legacy block carries `retweeted_status_result` maps to a
tweet with `is_retweet = true` whose child equals the independent
mapping of the reconstructed embedded envelope (which is `frag1` here). -/
theorem mapper_empty_fragment_raises_value_error :
    Tweet.from_api_response (jobj []) = .error .valueError ∧
    Tweet.from_api_response (jobj [("tweet_results", jobj [("result", jobj [])])]) =
      .error .valueError ∧
    Tweet.from_api_response fragRT = .ok tRT ∧
    tRT.is_retweet = true ∧
    tRT.retweet_status = some t1 ∧
    Tweet.from_api_response frag1 = .ok t1 :=
  ⟨rfl, rfl, rfl, rfl, rfl, rfl⟩

/-- C10: with a present API key, the constructor raises
`InsufficientCreditsError` exactly when the checked balance is below
100, and a successfully constructed client always carries a checked
balance of at least 100; the balance check itself yields 0 — hence a
constructor failure — whenever the endpoint is unreachable, the body is
unparsable, or the body is an error envelope (`code == -1`). -/
theorem init_rejects_balance_below_100 (k : String) (bf : BalanceFetch)
    (hk : ¬ k = "") :
    (check_balance bf < 100 →
      TwitterClient.init (some k) bf = .error .insufficientCredits) ∧
    (∀ n : Int, TwitterClient.init (some k) bf = .ok n →
      100 ≤ n ∧ n = check_balance bf) ∧
    check_balance .connectionError = 0 ∧
    check_balance (.ok "not json" none) = 0 ∧
    check_balance (.ok "irrelevant" (some (jobj [("code", .num (-1))]))) = 0 := by
  refine ⟨?_, ?_, rfl, rfl, rfl⟩
  · intro hlt
    simp [TwitterClient.init, hk, hlt]
  · intro n hn
    by_cases hlt : check_balance bf < 100
    · simp [TwitterClient.init, hk, hlt] at hn
    · simp [TwitterClient.init, hk, hlt] at hn
      exact ⟨by omega, hn.symm⟩

/-- Witness for C10: unreachable balance endpoint, key present. -/
theorem init_rejects_balance_below_100_witness :
    ¬ ("key" : String) = "" ∧
    check_balance BalanceFetch.connectionError < 100 ∧
    TwitterClient.init (some "key") BalanceFetch.connectionError =
      .error .insufficientCredits := by
  refine ⟨by decide, by decide, ?_⟩
  exact (init_rejects_balance_below_100 "key" .connectionError (by decide)).1 (by decide)
